import Mathlib

namespace TranscriptApp

/-! Shallow embedding of the meeting-transcript client's extraction-review
workflow.  The data model follows
`src/front-end/transcript/src/lib/types.ts`; the review-panel logic follows
`src/front-end/transcript/src/components/ExtractedItemsPanel.tsx`; the
app-level task / undo-buffer logic follows the application root component.
Identifiers typed `number | null` in the source are embedded as `Option Nat`,
and JavaScript truthiness of such a value (`!x`, `x && _`) is `truthyId`
(both `null` and `0` are falsy).  Server round trips are passed in explicitly
as `Except String _` results, so a thrown request is `Except.error`.
-/

inductive ExtractionStatus
  | processing
  | complete
  | failed
  deriving DecidableEq, Repr

structure Extraction where
  id : Nat
  meeting_id : Nat
  transcript_version_id : Nat
  status : ExtractionStatus
  model : String
  created_at : String
  error : Option String
  deriving DecidableEq, Repr

inductive TaskStatus
  | todo
  | in_progress
  | done
  deriving DecidableEq, Repr

structure Task where
  id : Nat
  workspace_id : Nat
  user_id : Nat
  title : String
  details : Option String
  due_at : Option String
  status : TaskStatus
  created_at : String
  deriving DecidableEq, Repr

/-- Raw item record as returned by `GET /extractions/{id}/items`, which the
client types as `any[]`: each reviewed field may be absent, and `status` /
`kind` are arbitrary strings because `normalizeItem` casts without
validating. -/
structure RawItem where
  id : Nat
  extraction_id : Nat
  title : String
  created_at : String
  kind : Option String
  item_type : Option String
  status : Option String
  contexts : Option (List String)
  details : Option String
  speaker : Option String
  timestamp_start : Option String
  timestamp_end : Option String
  confidence : Option Rat
  needs_review : Option Bool
  review_reasons : Option (List String)
  deriving DecidableEq, Repr

/-- In-memory extracted item, as produced by `normalizeItem`: every defaulted
field is filled in, and `kind` / `status` hold whatever string the raw record
carried (the cast in the source is unchecked). -/
structure ExtractedItem where
  id : Nat
  extraction_id : Nat
  kind : String
  title : String
  details : Option String
  contexts : List String
  speaker : Option String
  timestamp_start : Option String
  timestamp_end : Option String
  confidence : Option Rat
  needs_review : Bool
  review_reasons : Option (List String)
  status : String
  created_at : String
  deriving DecidableEq, Repr

/-- Embeds `normalizeItem` (ExtractedItemsPanel.tsx, lines 8-22): spreads the
raw record and fills defaults with `??`; `!!raw.needs_review` is
`Option.getD false`. -/
def normalizeItem (raw : RawItem) : ExtractedItem :=
  { id := raw.id
    extraction_id := raw.extraction_id
    kind := raw.kind.getD (raw.item_type.getD "note")
    title := raw.title
    details := raw.details
    contexts := raw.contexts.getD []
    speaker := raw.speaker
    timestamp_start := raw.timestamp_start
    timestamp_end := raw.timestamp_end
    confidence := raw.confidence
    needs_review := raw.needs_review.getD false
    review_reasons := raw.review_reasons
    status := raw.status.getD "pending"
    created_at := raw.created_at }

/-- The three review statuses enumerated by `ExtractedItemStatus` in
`types.ts`. -/
def itemStatusValues : List String := ["pending", "approved", "rejected"]

inductive ReviewFilter
  | pending
  | approved
  | rejected
  | all
  deriving DecidableEq, Repr

/-- The string each `ReviewFilter` member denotes in the source's union type. -/
def ReviewFilter.str : ReviewFilter → String
  | .pending => "pending"
  | .approved => "approved"
  | .rejected => "rejected"
  | .all => "all"

/-- Embeds the `filteredItems` memo (lines 138-141).  Normalized items always
carry a status string, so the defensive `it.status ?? "pending"` reads
`it.status`. -/
def filteredItems (rf : ReviewFilter) (items : List ExtractedItem) :
    List ExtractedItem :=
  if rf = ReviewFilter.all then items
  else items.filter fun it => it.status == rf.str

/-- In-memory state of `ExtractedItemsPanel`: run list, selected run id,
normalized item list, per-item busy flags (`Record<number, boolean>` read
through `!!busyIds[id]`), and the review filter. -/
structure PanelState where
  extractions : List Extraction
  selectedExtractionId : Option Nat
  items : List ExtractedItem
  busyIds : Nat → Bool
  reviewFilter : ReviewFilter

/-- JavaScript truthiness of a `number | null` identifier: `null` and `0` are
falsy. -/
def truthyId : Option Nat → Bool
  | none => false
  | some n => n != 0

/-- Embeds the `activeExtraction` memo (lines 46-49):
`extractions.find((e) => e.id === selectedExtractionId) ?? null`, guarded by
`!selectedExtractionId`. -/
def activeExtraction (st : PanelState) : Option Extraction :=
  match st.selectedExtractionId with
  | none => none
  | some i => if i = 0 then none else st.extractions.find? fun e => e.id == i

/-- Embeds the body of the polling effect (lines 117-136): the effect first
clears any pending interval, then calls `window.setInterval(…, 1500)` exactly
when the active extraction's status is `processing`.  The result is the
pending interval after the effect has run (`some period` = an interval of
that period is pending, `none` = no interval pending). -/
def pollTimerAfterEffect (active : Option Extraction) : Option Nat :=
  match active with
  | none => none
  | some e =>
    if e.status = ExtractionStatus.processing then some 1500 else none

/-- Events of the polling lifecycle: the effect re-running because the
observed active extraction changed, or the pending interval firing a refresh
tick. -/
inductive PollEvent
  | observe (active : Option Extraction)
  | tick
  deriving DecidableEq, Repr

/-- How the pending interval evolves on each event: an effect re-run replaces
it (clear, then conditionally reschedule); a tick leaves it pending. -/
def stepTimer (timer : Option Nat) : PollEvent → Option Nat
  | .observe a => pollTimerAfterEffect a
  | .tick => timer

/-- A trace is admissible when every tick fires while an interval is
actually pending. -/
def traceOk : Option Nat → List PollEvent → Bool
  | _, [] => true
  | timer, ev :: rest =>
    (match ev with
     | PollEvent.tick => timer.isSome
     | PollEvent.observe _ => true) && traceOk (stepTimer timer ev) rest

/-- Whether a list of events contains an effect re-run. -/
def hasObserve : List PollEvent → Bool
  | [] => false
  | PollEvent.observe _ :: _ => true
  | PollEvent.tick :: rest => hasObserve rest

/-- Responses of the external backend consulted during a refresh: the run
list per meeting id and the raw item list per run id. -/
structure ServerData where
  extractionsOf : Nat → List Extraction
  itemsOf : Nat → List RawItem

/-- Embeds `refreshItems` (lines 51-63): a falsy extraction id clears the
item list, otherwise the fetched raw items are normalized and stored. -/
def refreshItems (srv : ServerData) (extractionId : Option Nat)
    (st : PanelState) : PanelState :=
  match extractionId with
  | none => { st with items := [] }
  | some i =>
    if i = 0 then { st with items := [] }
    else { st with items := (srv.itemsOf i).map normalizeItem }

/-- Embeds the body of `refreshExtractions` (lines 65-94): clears everything
when the meeting id is falsy; otherwise stores the fetched run list, then
either adopts the first run when none was selected, or falls back to the
first run (or to no selection) when the previously selected id is absent
from the fetched list.  `if (id) await refreshItems(id)` only loads items
for a truthy fallback id. -/
def refreshExtractionsCore (srv : ServerData) (meetingId : Option Nat)
    (st : PanelState) : PanelState :=
  match meetingId with
  | none => { st with extractions := [], selectedExtractionId := none }
  | some m =>
    if m = 0 then { st with extractions := [], selectedExtractionId := none }
    else
      match srv.extractionsOf m with
      | [] =>
        if truthyId st.selectedExtractionId then
          { st with extractions := [], selectedExtractionId := none }
        else { st with extractions := [] }
      | e0 :: rest =>
        if truthyId st.selectedExtractionId = false then
          refreshItems srv (some e0.id)
            { st with
              extractions := e0 :: rest
              selectedExtractionId := some e0.id }
        else if ((e0 :: rest).any fun x =>
            some x.id == st.selectedExtractionId) = false then
          if e0.id = 0 then
            { st with
              extractions := e0 :: rest
              selectedExtractionId := some e0.id }
          else
            refreshItems srv (some e0.id)
              { st with
                extractions := e0 :: rest
                selectedExtractionId := some e0.id }
        else { st with extractions := e0 :: rest }

/-- Embeds `refreshExtractions` composed with the effect on
`selectedExtractionId` (lines 113-115), which re-runs `refreshItems`
whenever the selected id has changed. -/
def refreshExtractions (srv : ServerData) (meetingId : Option Nat)
    (st : PanelState) : PanelState :=
  if (refreshExtractionsCore srv meetingId st).selectedExtractionId
      = st.selectedExtractionId then
    refreshExtractionsCore srv meetingId st
  else
    refreshItems srv
      (refreshExtractionsCore srv meetingId st).selectedExtractionId
      (refreshExtractionsCore srv meetingId st)

/-- Payload of `api.createTask` as built inside `approveItem` (lines
153-158). -/
structure CreateTaskPayload where
  workspace_id : Nat
  title : String
  details : Option String
  due_at : Option String
  deriving DecidableEq, Repr

/-- Body sent to `PATCH /items/{id}`: `none` means the field is absent from
the payload; for the nullable fields `some none` is an explicit `null`. -/
structure ItemPatch where
  status : Option String := none
  needs_review : Option Bool := none
  review_reasons : Option (Option (List String)) := none
  edit_reason : Option String := none
  title : Option String := none
  details : Option (Option String) := none
  deriving DecidableEq, Repr

/-- The patch body sent by `approveItem` (lines 166-171). -/
def approvedPatch : ItemPatch :=
  { status := some "approved"
    needs_review := some false
    review_reasons := some none
    edit_reason := some "human_approved" }

/-- The patch body sent by `rejectItem` (lines 186-191), for a prompt result
of `reason` (`none` = prompt cancelled).  `reason ? [reason] : […]` is JS
truthiness, so the empty string also falls back to `"human_rejected"`;
`reason ?? "human_rejected"` only replaces `null`. -/
def rejectedPatch (reason : Option String) : ItemPatch :=
  { status := some "rejected"
    needs_review := some true
    review_reasons := some (some (match reason with
      | some r => if r = "" then ["human_rejected"] else [r]
      | none => ["human_rejected"]))
    edit_reason := some (reason.getD "human_rejected") }

/-- Embeds `setBusy` (lines 143-144): `setBusyIds((prev) => ({ ...prev,
[id]: v }))`. -/
def setBusy (st : PanelState) (id : Nat) (v : Bool) : PanelState :=
  { st with busyIds := fun j => if j = id then v else st.busyIds j }

/-- Embeds the `setItems((prev) => prev.map((p) => (p.id === id ? patched :
p)))` updates shared by approve, reject and edit. -/
def replaceItem (items : List ExtractedItem) (id : Nat)
    (patched : ExtractedItem) : List ExtractedItem :=
  items.map fun p => if p.id == id then patched else p

/-- Observable outcome of one panel mutation: the final panel state, the
panel state while the network round trip was in flight, the task-creation
requests issued, the item patch request issued, whether `onTasksChanged` was
invoked, and the error propagated to the initiating UI action (if any). -/
structure OpResult where
  state : PanelState
  stateDuring : PanelState
  taskRequests : List CreateTaskPayload
  itemPatchRequest : Option (Nat × ItemPatch)
  tasksRefreshRequested : Bool
  error : Option String

/-- Embeds `approveItem` (lines 146-178).  `createRes` is the outcome of
`api.createTask` (consulted only when the item's kind is `action_item` and a
workspace is active; its failure is caught and logged, and only gates the
`onTasksChanged` callback), `patchRes` the outcome of
`api.patchExtractedItem`.  Normalized items always carry a kind string, so
`(item as any).kind ?? (item as any).item_type` reads `item.kind`. -/
def approveItem (workspaceId : Option Nat) (createRes : Except String Task)
    (patchRes : Except String RawItem) (item : ExtractedItem)
    (st : PanelState) : OpResult :=
  let stBusy := setBusy st item.id true
  let isAction := item.kind == "action_item" && truthyId workspaceId
  let taskReqs : List CreateTaskPayload :=
    if isAction then
      [{ workspace_id := workspaceId.getD 0
         title := item.title
         details := item.details
         due_at := none }]
    else []
  let refreshed := isAction && (match createRes with
    | .ok _ => true
    | .error _ => false)
  match patchRes with
  | .ok raw =>
    { state :=
        setBusy
          { stBusy with
            items := replaceItem stBusy.items item.id (normalizeItem raw) }
          item.id false
      stateDuring := stBusy
      taskRequests := taskReqs
      itemPatchRequest := some (item.id, approvedPatch)
      tasksRefreshRequested := refreshed
      error := none }
  | .error e =>
    { state := setBusy stBusy item.id false
      stateDuring := stBusy
      taskRequests := taskReqs
      itemPatchRequest := some (item.id, approvedPatch)
      tasksRefreshRequested := refreshed
      error := some e }

/-- Embeds `rejectItem` (lines 180-198).  `promptResult` is
`window.prompt(…) ?? null` (`none` = cancelled). -/
def rejectItem (promptResult : Option String)
    (patchRes : Except String RawItem) (item : ExtractedItem)
    (st : PanelState) : OpResult :=
  let stBusy := setBusy st item.id true
  match patchRes with
  | .ok raw =>
    { state :=
        setBusy
          { stBusy with
            items := replaceItem stBusy.items item.id (normalizeItem raw) }
          item.id false
      stateDuring := stBusy
      taskRequests := []
      itemPatchRequest := some (item.id, rejectedPatch promptResult)
      tasksRefreshRequested := false
      error := none }
  | .error e =>
    { state := setBusy stBusy item.id false
      stateDuring := stBusy
      taskRequests := []
      itemPatchRequest := some (item.id, rejectedPatch promptResult)
      tasksRefreshRequested := false
      error := some e }

/-- Embeds `editItem` (lines 200-216): sends the caller's payload of changed
fields with `edit_reason: payload.edit_reason ?? "human_edit"`. -/
def editItem (payload : ItemPatch) (patchRes : Except String RawItem)
    (itemId : Nat) (st : PanelState) : OpResult :=
  let stBusy := setBusy st itemId true
  let sent : ItemPatch :=
    { payload with edit_reason := some (payload.edit_reason.getD "human_edit") }
  match patchRes with
  | .ok raw =>
    { state :=
        setBusy
          { stBusy with
            items := replaceItem stBusy.items itemId (normalizeItem raw) }
          itemId false
      stateDuring := stBusy
      taskRequests := []
      itemPatchRequest := some (itemId, sent)
      tasksRefreshRequested := false
      error := none }
  | .error e =>
    { state := setBusy stBusy itemId false
      stateDuring := stBusy
      taskRequests := []
      itemPatchRequest := some (itemId, sent)
      tasksRefreshRequested := false
      error := some e }

/-- App-level state relevant to tasks and the single-slot undo buffer
(root component, around lines 410-438). -/
structure AppState where
  tasks : List Task
  lastDone : Option (Nat × TaskStatus)
  activeWorkspaceId : Option Nat
  deriving DecidableEq, Repr

/-- Embeds `const canUndo = !!lastDone` (line 438). -/
def canUndo (st : AppState) : Bool := st.lastDone.isSome

/-- Observable outcome of one task mutation: the app state afterwards, the
`patchTask` request issued (task id and requested status), and the error
propagated to the initiating UI action (if any). -/
structure TaskOpResult where
  state : AppState
  request : Option (Nat × TaskStatus)
  error : Option String
  deriving DecidableEq, Repr

/-- Embeds `setTasks((prev) => prev.map((t) => (t.id === taskId ? updated :
t)))`. -/
def replaceTask (tasks : List Task) (taskId : Nat) (updated : Task) :
    List Task :=
  tasks.map fun t => if t.id == taskId then updated else t

/-- Embeds `handleMarkDone` (lines 568-576).  Note that `setLastDone` runs
before the awaited `api.patchTask`, so the undo record is written even when
the request then fails. -/
def handleMarkDone (patchRes : Except String Task) (taskId : Nat)
    (st : AppState) : TaskOpResult :=
  match st.tasks.find? (fun t => t.id == taskId) with
  | none => { state := st, request := none, error := none }
  | some current =>
    match patchRes with
    | .error e =>
      { state := { st with lastDone := some (taskId, current.status) }
        request := some (taskId, TaskStatus.done)
        error := some e }
    | .ok updated =>
      { state :=
          { st with
            lastDone := some (taskId, current.status)
            tasks := replaceTask st.tasks taskId updated }
        request := some (taskId, TaskStatus.done)
        error := none }

/-- Embeds `handleUndo` (lines 578-585): re-applies the recorded prior
status, then clears the record; a missing record makes it a no-op. -/
def handleUndo (patchRes : Except String Task) (st : AppState) :
    TaskOpResult :=
  match st.lastDone with
  | none => { state := st, request := none, error := none }
  | some (taskId, prevStatus) =>
    match patchRes with
    | .error e =>
      { state := st
        request := some (taskId, prevStatus)
        error := some e }
    | .ok updated =>
      { state :=
          { st with
            tasks := replaceTask st.tasks taskId updated
            lastDone := none }
        request := some (taskId, prevStatus)
        error := none }

/-- Embeds `handleChangeWorkspace` (lines 548-551). -/
def handleChangeWorkspace (id : Nat) (st : AppState) : AppState :=
  { st with activeWorkspaceId := some id, lastDone := none }

/-! Concrete fixtures used by counterexamples and witnesses. -/

/-- A raw record whose `status` field is present but outside the enumerated
review statuses; the client's cast does not validate it. -/
def rawBogus : RawItem :=
  { id := 1, extraction_id := 1, title := "weekly sync recap"
    created_at := "2025-01-01", kind := some "summary", item_type := none
    status := some "archived", contexts := none, details := none
    speaker := none, timestamp_start := none, timestamp_end := none
    confidence := none, needs_review := none, review_reasons := none }

/-- A raw record carrying one of the three enumerated statuses. -/
def rawApprovedEx : RawItem :=
  { id := 2, extraction_id := 1, title := "ship the report"
    created_at := "2025-01-01", kind := some "action_item", item_type := none
    status := some "approved", contexts := some ["we should ship it"]
    details := some "by Friday", speaker := some "Ana"
    timestamp_start := none, timestamp_end := none
    confidence := some (9 / 10), needs_review := some false
    review_reasons := none }

/-- C7: the claim asserts every normalized status lies in
{pending, approved, rejected}; the raw record `rawBogus` with status
"archived" is passed through unvalidated, refuting it. -/
theorem C7_counterexample :
    (normalizeItem rawBogus).status = "archived" ∧
    (normalizeItem rawBogus).status ∉ itemStatusValues := by
  constructor
  · rfl
  · decide

/-- C7 (amended): normalization copies the raw status when the field is
present and defaults to "pending" when it is absent; consequently the
normalized status lies in {pending, approved, rejected} whenever the raw
status, if present, is one of those values — an out-of-enum raw status is
passed through unvalidated. -/
theorem C7_normalize_status (raw : RawItem) :
    (normalizeItem raw).status = raw.status.getD "pending" ∧
    (raw.status = none → (normalizeItem raw).status = "pending") ∧
    (∀ s, raw.status = some s → s ∈ itemStatusValues →
      (normalizeItem raw).status ∈ itemStatusValues) := by
  refine ⟨rfl, ?_, ?_⟩
  · intro h
    simp [normalizeItem, h]
  · intro s hs hmem
    simpa [normalizeItem, hs] using hmem

/-- Witness for C7_normalize_status at the concrete record `rawApprovedEx`. -/
theorem C7_normalize_status_witness :
    (normalizeItem rawApprovedEx).status ∈ itemStatusValues :=
  (C7_normalize_status rawApprovedEx).2.2 "approved" rfl (by decide)

/-- A pending extracted item. -/
def itemPendingEx : ExtractedItem :=
  { id := 3, extraction_id := 1, kind := "decision"
    title := "use the new template", details := none, contexts := []
    speaker := none, timestamp_start := none, timestamp_end := none
    confidence := none, needs_review := false, review_reasons := none
    status := "pending", created_at := "2025-01-01" }

/-- An approved extracted item. -/
def itemApprovedEx : ExtractedItem :=
  { id := 4, extraction_id := 1, kind := "note"
    title := "budget is frozen", details := none, contexts := []
    speaker := none, timestamp_start := none, timestamp_end := none
    confidence := none, needs_review := false, review_reasons := none
    status := "approved", created_at := "2025-01-01" }

/-- C8: filtering by `all` is the identity on the item list, every filter
result is a subsequence of the list (order preserved, no mutation), and for
the three status filters membership in the result is exactly membership in
the list with the matching status. -/
theorem C8_filteredItems (items : List ExtractedItem) (rf : ReviewFilter) :
    filteredItems ReviewFilter.all items = items ∧
    List.Sublist (filteredItems rf items) items ∧
    (rf ≠ ReviewFilter.all →
      ∀ x, x ∈ filteredItems rf items ↔ x ∈ items ∧ x.status = rf.str) := by
  refine ⟨rfl, ?_, ?_⟩
  · unfold filteredItems
    split
    · exact List.Sublist.refl items
    · exact List.filter_sublist items
  · intro h x
    simp [filteredItems, h, List.mem_filter]

/-- Witness for C8_filteredItems with the `pending` filter on a concrete
two-item list. -/
theorem C8_filteredItems_witness :
    itemPendingEx ∈
        filteredItems ReviewFilter.pending [itemPendingEx, itemApprovedEx] ↔
      itemPendingEx ∈ [itemPendingEx, itemApprovedEx] ∧
        itemPendingEx.status = ReviewFilter.pending.str :=
  (C8_filteredItems [itemPendingEx, itemApprovedEx] ReviewFilter.pending).2.2
    (by decide) itemPendingEx

/-- Helper: with no interval pending and no effect re-run, a tick can never
fire. -/
theorem traceOk_none_of_tick (evs : List PollEvent)
    (h1 : hasObserve evs = false) (h2 : PollEvent.tick ∈ evs) :
    traceOk none evs = false := by
  induction evs with
  | nil => cases h2
  | cons ev rest ih =>
    cases ev with
    | observe a => simp [hasObserve] at h1
    | tick => simp [traceOk, stepTimer]

/-- C2: the polling effect leaves an interval (of 1500 ms) pending exactly
when the active extraction's status is `processing`; a selected run with a
terminal status never schedules polling; and once the effect observes a
terminal (or absent) active run, no refresh tick can fire before another
observation. -/
theorem C2_polling (st : PanelState) (e : Extraction) (timer : Option Nat)
    (a : Option Extraction) (evs : List PollEvent) :
    (pollTimerAfterEffect (activeExtraction st) = some 1500 ↔
      ∃ e2, activeExtraction st = some e2 ∧
        e2.status = ExtractionStatus.processing) ∧
    (activeExtraction st = some e →
      e.status = ExtractionStatus.complete ∨
        e.status = ExtractionStatus.failed →
      pollTimerAfterEffect (activeExtraction st) = none) ∧
    ((∀ e2, a = some e2 → e2.status ≠ ExtractionStatus.processing) →
      hasObserve evs = false → PollEvent.tick ∈ evs →
      traceOk timer (PollEvent.observe a :: evs) = false) := by
  refine ⟨?_, ?_, ?_⟩
  · cases h : activeExtraction st with
    | none => simp [pollTimerAfterEffect]
    | some e2 =>
      by_cases hp : e2.status = ExtractionStatus.processing
      · simp [pollTimerAfterEffect, hp]
      · simp [pollTimerAfterEffect, hp]
  · intro ha hterm
    rcases hterm with h | h <;>
      simp [ha, pollTimerAfterEffect, h]
  · intro hterm hobs htick
    have hafter : pollTimerAfterEffect a = none := by
      cases a with
      | none => rfl
      | some e2 =>
        have := hterm e2 rfl
        simp [pollTimerAfterEffect, this]
    simp only [traceOk, stepTimer, hafter, Bool.true_and]
    exact traceOk_none_of_tick evs hobs htick

/-- A completed extraction run. -/
def extCompleteEx : Extraction :=
  { id := 6, meeting_id := 2, transcript_version_id := 1
    status := ExtractionStatus.complete, model := "hf_structured"
    created_at := "2025-01-02", error := none }

/-- A panel whose selected run is `extCompleteEx`. -/
def panelCompleteEx : PanelState :=
  { extractions := [extCompleteEx]
    selectedExtractionId := some 6
    items := []
    busyIds := fun _ => false
    reviewFilter := ReviewFilter.pending }

/-- Witness for C2_polling: selecting the completed run schedules nothing,
and a tick after observing it is inadmissible. -/
theorem C2_polling_witness :
    pollTimerAfterEffect (activeExtraction panelCompleteEx) = none ∧
    traceOk (some 1500)
      (PollEvent.observe (some extCompleteEx) :: [PollEvent.tick]) = false := by
  constructor
  · exact
      (C2_polling panelCompleteEx extCompleteEx none none []).2.1
        (by decide) (Or.inl rfl)
  · exact
      (C2_polling panelCompleteEx extCompleteEx (some 1500)
        (some extCompleteEx) [PollEvent.tick]).2.2
        (by intro e2 he; cases he; decide) rfl (by decide)

/-- C1: approving an `action_item` while a workspace is active issues exactly
one task-creation request copying the item's title and details, always issues
the `approved` patch (status `approved`, `needs_review` false, review reasons
cleared to null, edit reason `human_approved`), is unaffected in state, error
and patch request by a task-creation failure (which is swallowed), and on a
successful patch replaces the item in the in-memory list by the normalized
server reply. -/
theorem C1_approve (ws : Option Nat) (createRes : Except String Task)
    (patchRes : Except String RawItem) (item : ExtractedItem)
    (st : PanelState) (hk : item.kind = "action_item")
    (hw : truthyId ws = true) :
    (approveItem ws createRes patchRes item st).taskRequests =
      [{ workspace_id := ws.getD 0, title := item.title,
         details := item.details, due_at := none }] ∧
    (approveItem ws createRes patchRes item st).itemPatchRequest =
      some (item.id, approvedPatch) ∧
    approvedPatch =
      { status := some "approved", needs_review := some false,
        review_reasons := some none, edit_reason := some "human_approved" } ∧
    (∀ cr2 : Except String Task,
      (approveItem ws cr2 patchRes item st).state =
          (approveItem ws createRes patchRes item st).state ∧
        (approveItem ws cr2 patchRes item st).error =
          (approveItem ws createRes patchRes item st).error ∧
        (approveItem ws cr2 patchRes item st).itemPatchRequest =
          (approveItem ws createRes patchRes item st).itemPatchRequest) ∧
    (∀ raw, patchRes = Except.ok raw →
      (approveItem ws createRes patchRes item st).state.items =
          replaceItem st.items item.id (normalizeItem raw) ∧
        (approveItem ws createRes patchRes item st).error = none) ∧
    (∀ msg, patchRes = Except.error msg →
      (approveItem ws createRes patchRes item st).error = some msg) := by
  have hkb : (item.kind == "action_item") = true := by simp [hk]
  refine ⟨?_, ?_, rfl, ?_, ?_, ?_⟩
  · cases patchRes <;> simp [approveItem, hkb, hw]
  · cases patchRes <;> rfl
  · intro cr2
    cases patchRes <;> exact ⟨rfl, rfl, rfl⟩
  · intro raw hres
    subst hres
    exact ⟨rfl, rfl⟩
  · intro msg hres
    subst hres
    rfl

/-- A pending `action_item` awaiting review. -/
def itemActionEx : ExtractedItem :=
  { id := 8, extraction_id := 1, kind := "action_item"
    title := "ship the report", details := some "by Friday", contexts := []
    speaker := some "Ana", timestamp_start := none, timestamp_end := none
    confidence := some (4 / 5), needs_review := false, review_reasons := none
    status := "pending", created_at := "2025-01-01" }

/-- The server's reply to patching item 8 to `approved`. -/
def rawReplyApprovedEx : RawItem :=
  { id := 8, extraction_id := 1, title := "ship the report"
    created_at := "2025-01-01", kind := some "action_item", item_type := none
    status := some "approved", contexts := none
    details := some "by Friday", speaker := some "Ana"
    timestamp_start := none, timestamp_end := none
    confidence := some (4 / 5), needs_review := some false
    review_reasons := none }

/-- A concrete task record, used to instantiate server replies. -/
def taskPlaceholderEx : Task :=
  { id := 31, workspace_id := 7, user_id := 1, title := "ship the report"
    details := some "by Friday", due_at := none
    status := TaskStatus.todo, created_at := "2025-01-03" }

/-- A review panel holding the single pending action item. -/
def panelReviewEx : PanelState :=
  { extractions := [], selectedExtractionId := none
    items := [itemActionEx]
    busyIds := fun _ => false
    reviewFilter := ReviewFilter.all }

/-- Witness for C1_approve: workspace 7, failing task creation, successful
patch. -/
theorem C1_approve_witness :
    (approveItem (some 7) (Except.error "createTask failed")
        (Except.ok rawReplyApprovedEx) itemActionEx panelReviewEx).taskRequests =
      [{ workspace_id := 7, title := "ship the report",
         details := some "by Friday", due_at := none }] ∧
    (approveItem (some 7) (Except.error "createTask failed")
        (Except.ok rawReplyApprovedEx) itemActionEx panelReviewEx).state.items =
      replaceItem panelReviewEx.items itemActionEx.id
        (normalizeItem rawReplyApprovedEx) :=
  ⟨(C1_approve (some 7) (Except.error "createTask failed")
      (Except.ok rawReplyApprovedEx) itemActionEx panelReviewEx rfl rfl).1,
   ((C1_approve (some 7) (Except.error "createTask failed")
      (Except.ok rawReplyApprovedEx) itemActionEx panelReviewEx rfl
      rfl).2.2.2.2.1 rawReplyApprovedEx rfl).1⟩

/-- C5: rejecting an item sends a patch with status `rejected` and
`needs_review` true; the review reasons are `[r]` for a provided non-empty
reason `r` and `["human_rejected"]` otherwise; the edit reason is the
provided reason (`"human_rejected"` only when the prompt was cancelled); on
success the normalized reply replaces the item in the in-memory list. -/
theorem C5_reject (reason : Option String) (patchRes : Except String RawItem)
    (item : ExtractedItem) (st : PanelState) :
    (rejectItem reason patchRes item st).itemPatchRequest =
      some (item.id, rejectedPatch reason) ∧
    (rejectedPatch reason).status = some "rejected" ∧
    (rejectedPatch reason).needs_review = some true ∧
    (∀ r, reason = some r → r ≠ "" →
      (rejectedPatch reason).review_reasons = some (some [r])) ∧
    ((reason = none ∨ reason = some "") →
      (rejectedPatch reason).review_reasons =
        some (some ["human_rejected"])) ∧
    (rejectedPatch reason).edit_reason =
      some (reason.getD "human_rejected") ∧
    (∀ raw, patchRes = Except.ok raw →
      (rejectItem reason patchRes item st).state.items =
        replaceItem st.items item.id (normalizeItem raw)) := by
  refine ⟨?_, rfl, rfl, ?_, ?_, rfl, ?_⟩
  · cases patchRes <;> rfl
  · intro r hr hne
    subst hr
    simp [rejectedPatch, hne]
  · rintro (h | h) <;> subst h <;> simp [rejectedPatch]
  · intro raw hres
    subst hres
    rfl

/-- Witness for C5_reject: rejecting item 8 with the reason
"duplicate of item 3". -/
theorem C5_reject_witness :
    (rejectedPatch (some "duplicate of item 3")).review_reasons =
      some (some ["duplicate of item 3"]) ∧
    (rejectItem (some "duplicate of item 3") (Except.ok rawReplyApprovedEx)
        itemActionEx panelReviewEx).state.items =
      replaceItem panelReviewEx.items itemActionEx.id
        (normalizeItem rawReplyApprovedEx) :=
  ⟨(C5_reject (some "duplicate of item 3") (Except.ok rawReplyApprovedEx)
      itemActionEx panelReviewEx).2.2.2.1 "duplicate of item 3" rfl
      (by decide),
   (C5_reject (some "duplicate of item 3") (Except.ok rawReplyApprovedEx)
      itemActionEx panelReviewEx).2.2.2.2.2.2 rawReplyApprovedEx rfl⟩

/-- C9: each mutating item operation holds the item's busy flag high for the
whole network round trip, resets it when the operation finishes whether the
request succeeded or failed, and leaves the busy flag of every other item
identifier untouched throughout. -/
theorem C9_busy (ws : Option Nat) (createRes : Except String Task)
    (patchRes : Except String RawItem) (reason : Option String)
    (payload : ItemPatch) (item : ExtractedItem) (itemId : Nat)
    (st : PanelState) :
    ((approveItem ws createRes patchRes item st).stateDuring.busyIds item.id
        = true ∧
      (approveItem ws createRes patchRes item st).state.busyIds item.id
        = false ∧
      (∀ j, j ≠ item.id →
        (approveItem ws createRes patchRes item st).stateDuring.busyIds j
            = st.busyIds j ∧
          (approveItem ws createRes patchRes item st).state.busyIds j
            = st.busyIds j)) ∧
    ((rejectItem reason patchRes item st).stateDuring.busyIds item.id
        = true ∧
      (rejectItem reason patchRes item st).state.busyIds item.id = false ∧
      (∀ j, j ≠ item.id →
        (rejectItem reason patchRes item st).stateDuring.busyIds j
            = st.busyIds j ∧
          (rejectItem reason patchRes item st).state.busyIds j
            = st.busyIds j)) ∧
    ((editItem payload patchRes itemId st).stateDuring.busyIds itemId
        = true ∧
      (editItem payload patchRes itemId st).state.busyIds itemId = false ∧
      (∀ j, j ≠ itemId →
        (editItem payload patchRes itemId st).stateDuring.busyIds j
            = st.busyIds j ∧
          (editItem payload patchRes itemId st).state.busyIds j
            = st.busyIds j)) := by
  cases patchRes <;>
    refine ⟨⟨?_, ?_, fun j hj => ⟨?_, ?_⟩⟩, ⟨?_, ?_, fun j hj => ⟨?_, ?_⟩⟩,
      ⟨?_, ?_, fun j hj => ⟨?_, ?_⟩⟩⟩ <;>
    simp [approveItem, rejectItem, editItem, setBusy, *]

/-- Witness for C9_busy: a failing edit of item 8 leaves item 99's busy flag
untouched and resets item 8's. -/
theorem C9_busy_witness :
    (editItem { title := some "new title" } (Except.error "network down") 8
        panelReviewEx).state.busyIds 8 = false ∧
    (editItem { title := some "new title" } (Except.error "network down") 8
        panelReviewEx).state.busyIds 99 = panelReviewEx.busyIds 99 :=
  ⟨(C9_busy (some 7) (Except.ok taskPlaceholderEx)
      (Except.error "network down") none { title := some "new title" }
      itemActionEx 8 panelReviewEx).2.2.2.1,
   ((C9_busy (some 7) (Except.ok taskPlaceholderEx)
      (Except.error "network down") none { title := some "new title" }
      itemActionEx 8 panelReviewEx).2.2.2.2 99 (by decide)).2⟩

/-- Helper: after replacing every task with id `taskId` by `u` (whose id is
`taskId`), a lookup by that id finds `u`, provided the lookup previously
found some task. -/
theorem find_replaceTask (tasks : List Task) (taskId : Nat) (t u : Task)
    (hu : u.id = taskId)
    (h : tasks.find? (fun x => x.id == taskId) = some t) :
    (replaceTask tasks taskId u).find? (fun x => x.id == taskId) = some u := by
  induction tasks with
  | nil => simp at h
  | cons a rest ih =>
    cases hpa : (a.id == taskId) with
    | true =>
      have heq : a.id = taskId := by simpa using hpa
      have hrep : replaceTask (a :: rest) taskId u =
          u :: replaceTask rest taskId u := by
        simp [replaceTask, heq]
      rw [hrep]
      exact List.find?_cons_of_pos _ (by simp [hu])
    | false =>
      have hne : ¬ a.id = taskId := by simpa using hpa
      rw [List.find?_cons_of_neg _ (by simp [hne])] at h
      have hrep : replaceTask (a :: rest) taskId u =
          a :: replaceTask rest taskId u := by
        simp [replaceTask, hne]
      rw [hrep, List.find?_cons_of_neg _ (by simp [hne])]
      exact ih h

/-- C3: marking a task done and immediately undoing re-requests the recorded
prior status, restores the task's status in the task list (given a server
that echoes the patched task), clears the single-slot undo record so that
`canUndo` is false and a further undo is a no-op, and a second markDone
overwrites the record with the newer task's prior status. -/
theorem C3_markDone_undo (stA : AppState) (taskId : Nat) (t u1 u2 : Task)
    (hfind : stA.tasks.find? (fun x => x.id == taskId) = some t)
    (hu1 : u1.id = taskId) (hu2 : u2.id = taskId)
    (hs2 : u2.status = t.status) :
    (handleUndo (Except.ok u2)
        (handleMarkDone (Except.ok u1) taskId stA).state).request =
      some (taskId, t.status) ∧
    (((handleUndo (Except.ok u2)
          (handleMarkDone (Except.ok u1) taskId stA).state).state.tasks.find?
        (fun x => x.id == taskId)).map Task.status) = some t.status ∧
    canUndo
        (handleUndo (Except.ok u2)
          (handleMarkDone (Except.ok u1) taskId stA).state).state = false ∧
    (∀ res, handleUndo res
        (handleUndo (Except.ok u2)
          (handleMarkDone (Except.ok u1) taskId stA).state).state =
      { state :=
          (handleUndo (Except.ok u2)
            (handleMarkDone (Except.ok u1) taskId stA).state).state
        request := none, error := none }) ∧
    (∀ (tid2 : Nat) (t2 u3 : Task),
      (handleMarkDone (Except.ok u1) taskId stA).state.tasks.find?
          (fun x => x.id == tid2) = some t2 →
      (handleMarkDone (Except.ok u3) tid2
          (handleMarkDone (Except.ok u1) taskId stA).state).state.lastDone =
        some (tid2, t2.status)) := by
  have hst1 : (handleMarkDone (Except.ok u1) taskId stA).state =
      { stA with
        lastDone := some (taskId, t.status)
        tasks := replaceTask stA.tasks taskId u1 } := by
    simp [handleMarkDone, hfind]
  have hfind1 :
      (replaceTask stA.tasks taskId u1).find? (fun x => x.id == taskId) =
        some u1 :=
    find_replaceTask stA.tasks taskId t u1 hu1 hfind
  have hfind2 :
      (replaceTask (replaceTask stA.tasks taskId u1) taskId u2).find?
        (fun x => x.id == taskId) = some u2 :=
    find_replaceTask (replaceTask stA.tasks taskId u1) taskId u1 u2 hu2 hfind1
  have hst2 : (handleUndo (Except.ok u2)
      (handleMarkDone (Except.ok u1) taskId stA).state).state =
      { stA with
        lastDone := none
        tasks := replaceTask (replaceTask stA.tasks taskId u1) taskId u2 } := by
    rw [hst1]
    simp [handleUndo]
  refine ⟨?_, ?_, ?_, ?_, ?_⟩
  · rw [hst1]
    simp [handleUndo]
  · rw [hst2]
    simp [hfind2, hs2]
  · rw [hst2]
    rfl
  · intro res
    rw [hst2]
    simp [handleUndo]
  · intro tid2 t2 u3 hfind3
    generalize hS : (handleMarkDone (Except.ok u1) taskId stA).state = S
      at hfind3 ⊢
    simp [handleMarkDone, hfind3]

/-- A todo task with id 1. -/
def taskTodoEx : Task :=
  { id := 1, workspace_id := 7, user_id := 1, title := "write minutes"
    details := none, due_at := none, status := TaskStatus.todo
    created_at := "2025-01-01" }

/-- The same task as echoed by the server after patching it to `done`. -/
def taskDoneEx : Task := { taskTodoEx with status := TaskStatus.done }

/-- An app session holding the one todo task and an empty undo buffer. -/
def appEx : AppState :=
  { tasks := [taskTodoEx], lastDone := none, activeWorkspaceId := some 7 }

/-- Witness for C3_markDone_undo on the concrete session `appEx`. -/
theorem C3_markDone_undo_witness :
    (((handleUndo (Except.ok taskTodoEx)
          (handleMarkDone (Except.ok taskDoneEx) 1 appEx).state).state.tasks.find?
        (fun x => x.id == 1)).map Task.status) = some TaskStatus.todo ∧
    canUndo
        (handleUndo (Except.ok taskTodoEx)
          (handleMarkDone (Except.ok taskDoneEx) 1 appEx).state).state =
      false :=
  ⟨(C3_markDone_undo appEx 1 taskTodoEx taskDoneEx taskTodoEx rfl rfl rfl
      rfl).2.1,
   (C3_markDone_undo appEx 1 taskTodoEx taskDoneEx taskTodoEx rfl rfl rfl
      rfl).2.2.1⟩

/-- C4 as stated is false: `handleMarkDone` writes the undo record before
awaiting `api.patchTask`, so a failed markDone leaves the undo buffer
changed.  Concretely, marking task 1 done in `appEx` with a failing request
propagates the error but flips the undo buffer from empty to a record. -/
theorem C4_counterexample :
    (handleMarkDone (Except.error "network down") 1 appEx).error =
      some "network down" ∧
    (handleMarkDone (Except.error "network down") 1 appEx).state.lastDone ≠
      appEx.lastDone := by
  constructor
  · rfl
  · decide

/-- C4 (amended): a failed mutation propagates its error to the initiating
UI action and leaves the task list and item list unchanged; undo, reject,
edit and approve's own item patch also leave the undo buffer unchanged, but
markDone records the new undo entry (task id and prior status) before
issuing the request, so after a failed markDone the undo buffer holds that
record. -/
theorem C4_failed_mutations (e : String) (taskId : Nat) (stA : AppState)
    (reason : Option String) (payload : ItemPatch) (item : ExtractedItem)
    (itemId : Nat) (stP : PanelState) (ws : Option Nat)
    (createRes : Except String Task) :
    ((handleMarkDone (Except.error e) taskId stA).state.tasks = stA.tasks) ∧
    (∀ current, stA.tasks.find? (fun x => x.id == taskId) = some current →
      (handleMarkDone (Except.error e) taskId stA).error = some e ∧
      (handleMarkDone (Except.error e) taskId stA).state.lastDone =
        some (taskId, current.status)) ∧
    ((handleUndo (Except.error e) stA).state = stA) ∧
    (canUndo stA = true → (handleUndo (Except.error e) stA).error = some e) ∧
    ((rejectItem reason (Except.error e) item stP).state.items = stP.items ∧
      (rejectItem reason (Except.error e) item stP).error = some e) ∧
    ((editItem payload (Except.error e) itemId stP).state.items = stP.items ∧
      (editItem payload (Except.error e) itemId stP).error = some e) ∧
    ((approveItem ws createRes (Except.error e) item stP).state.items =
        stP.items ∧
      (approveItem ws createRes (Except.error e) item stP).error = some e) := by
  refine ⟨?_, ?_, ?_, ?_, ⟨rfl, rfl⟩, ⟨rfl, rfl⟩, ⟨rfl, rfl⟩⟩
  · cases h : stA.tasks.find? (fun x => x.id == taskId) <;>
      simp [handleMarkDone, h]
  · intro current hc
    simp [handleMarkDone, hc]
  · cases h : stA.lastDone with
    | none => simp [handleUndo, h]
    | some p =>
      cases p
      simp [handleUndo, h]
  · intro hcu
    cases h : stA.lastDone with
    | none => simp [canUndo, h] at hcu
    | some p =>
      cases p
      simp [handleUndo, h]

/-- Witness for C4_failed_mutations: the failing markDone and a failing
reject on the concrete fixtures. -/
theorem C4_failed_mutations_witness :
    (handleMarkDone (Except.error "network down") 1 appEx).state.lastDone =
      some (1, TaskStatus.todo) ∧
    (rejectItem none (Except.error "network down") itemActionEx
        panelReviewEx).state.items = panelReviewEx.items :=
  ⟨((C4_failed_mutations "network down" 1 appEx none {} itemActionEx 8
      panelReviewEx (some 7) (Except.ok taskPlaceholderEx)).2.1 taskTodoEx
      rfl).2,
   (C4_failed_mutations "network down" 1 appEx none {} itemActionEx 8
      panelReviewEx (some 7) (Except.ok taskPlaceholderEx)).2.2.2.2.1.1⟩

/-- C10: switching the active workspace clears the single-slot undo buffer,
so immediately afterwards `canUndo` is false and a further undo is a no-op,
whatever was recorded before. -/
theorem C10_changeWorkspace (id : Nat) (st : AppState)
    (res : Except String Task) :
    (handleChangeWorkspace id st).lastDone = none ∧
    canUndo (handleChangeWorkspace id st) = false ∧
    handleUndo res (handleChangeWorkspace id st) =
      { state := handleChangeWorkspace id st
        request := none, error := none } := by
  refine ⟨rfl, rfl, ?_⟩
  simp [handleUndo, handleChangeWorkspace]

/-- C6: after refreshing the run list of meeting `m` — (a) with no prior
selection and a non-empty list, the first (most recent) run becomes selected
and its items are loaded; (b) with a prior selection absent from the
refreshed list, selection falls back to the first run and its items are
loaded; (c) with an empty list, no run is selected and the item list is
empty. -/
theorem C6_refresh (srv : ServerData) (m : Nat) (st : PanelState)
    (hm : m ≠ 0) :
    (∀ e0 rest, st.selectedExtractionId = none →
      srv.extractionsOf m = e0 :: rest → e0.id ≠ 0 →
      (refreshExtractions srv (some m) st).selectedExtractionId =
          some e0.id ∧
        (refreshExtractions srv (some m) st).items =
          (srv.itemsOf e0.id).map normalizeItem ∧
        (refreshExtractions srv (some m) st).extractions = e0 :: rest) ∧
    (∀ k e0 rest, st.selectedExtractionId = some k → k ≠ 0 →
      srv.extractionsOf m = e0 :: rest →
      (∀ x ∈ srv.extractionsOf m, x.id ≠ k) → e0.id ≠ 0 →
      (refreshExtractions srv (some m) st).selectedExtractionId =
          some e0.id ∧
        (refreshExtractions srv (some m) st).items =
          (srv.itemsOf e0.id).map normalizeItem) ∧
    (srv.extractionsOf m = [] → st.selectedExtractionId ≠ some 0 →
      (st.selectedExtractionId = none → st.items = []) →
      (refreshExtractions srv (some m) st).selectedExtractionId = none ∧
        (refreshExtractions srv (some m) st).items = []) := by
  refine ⟨?_, ?_, ?_⟩
  · intro e0 rest hsel hexts h0
    have hcore : refreshExtractionsCore srv (some m) st =
        { st with
          extractions := e0 :: rest
          selectedExtractionId := some e0.id
          items := (srv.itemsOf e0.id).map normalizeItem } := by
      simp [refreshExtractionsCore, hm, hexts, hsel, truthyId, refreshItems,
        h0]
    refine ⟨?_, ?_, ?_⟩ <;>
      simp [refreshExtractions, hcore, hsel, refreshItems, h0]
  · intro k e0 rest hsel hk hexts hnotin h0
    rw [hexts] at hnotin
    have ht : truthyId st.selectedExtractionId = true := by
      simp [hsel, truthyId, hk]
    have hany : ((e0 :: rest).any fun x =>
        some x.id == st.selectedExtractionId) = false := by
      rw [hsel]
      simp only [List.any_eq_false]
      intro x hx
      simp [hnotin x hx]
    have hne0 : e0.id ≠ k := hnotin e0 (List.mem_cons_self e0 rest)
    have hcore : refreshExtractionsCore srv (some m) st =
        { st with
          extractions := e0 :: rest
          selectedExtractionId := some e0.id
          items := (srv.itemsOf e0.id).map normalizeItem } := by
      simp [refreshExtractionsCore, hm, hexts, ht, hany, refreshItems, h0]
    constructor <;>
      simp [refreshExtractions, hcore, hsel, hne0, refreshItems, h0]
  · intro hexts hsel0 hinv
    cases hsel : st.selectedExtractionId with
    | none =>
      have hitems := hinv hsel
      have hcore : refreshExtractionsCore srv (some m) st =
          { st with extractions := [] } := by
        simp [refreshExtractionsCore, hm, hexts, hsel, truthyId]
      constructor
      · simp [refreshExtractions, hcore, hsel]
      · simp [refreshExtractions, hcore, hsel, hitems]
    | some k =>
      have hk : k ≠ 0 := by
        intro h
        exact hsel0 (by rw [hsel, h])
      have hcore : refreshExtractionsCore srv (some m) st =
          { st with extractions := [], selectedExtractionId := none } := by
        simp [refreshExtractionsCore, hm, hexts, hsel, truthyId, hk]
      constructor
      · simp [refreshExtractions, hcore, hsel, refreshItems]
      · simp [refreshExtractions, hcore, hsel, refreshItems]

/-- A processing extraction run with id 10 for meeting 1. -/
def ext10Ex : Extraction :=
  { id := 10, meeting_id := 1, transcript_version_id := 1
    status := ExtractionStatus.processing, model := "hf_structured"
    created_at := "2025-01-02", error := none }

/-- A backend holding one run (id 10) for meeting 1 and one raw item for
run 10. -/
def srvEx : ServerData :=
  { extractionsOf := fun m => if m = 1 then [ext10Ex] else []
    itemsOf := fun i => if i = 10 then [rawApprovedEx] else [] }

/-- A panel with nothing selected and no items. -/
def panelNoSelEx : PanelState :=
  { extractions := [], selectedExtractionId := none, items := []
    busyIds := fun _ => false, reviewFilter := ReviewFilter.pending }

/-- Witness for C6_refresh: refreshing meeting 1 with no prior selection
adopts run 10 and loads its items. -/
theorem C6_refresh_witness :
    (refreshExtractions srvEx (some 1) panelNoSelEx).selectedExtractionId =
      some 10 ∧
    (refreshExtractions srvEx (some 1) panelNoSelEx).items =
      (srvEx.itemsOf 10).map normalizeItem :=
  ⟨((C6_refresh srvEx 1 panelNoSelEx (by decide)).1 ext10Ex [] rfl rfl
      (by decide)).1,
   ((C6_refresh srvEx 1 panelNoSelEx (by decide)).1 ext10Ex [] rfl rfl
      (by decide)).2.1⟩

end TranscriptApp
